import Mathlib

/-!
Shallow embedding of `src/teacher_bot.py` (class `TeacherBot`), the core of the
telegram-teacher-bot repository: user-profile data model, SQLite-backed user
store, language detection, response generation (LLM path and rule-based path
with translation), the message handler `handle_message`, and the language
button callback.

Modelling conventions:
* Python strings are Lean `String`s; Python `str.lower()`, `str.strip()`,
  `len()` and the substring test `needle in hay` are modelled on the
  underlying `List Char` (`pyLower`, `pyStrip`, `List.length`, `containsSub`),
  because those match Python codepoint semantics directly.
* Every confidence value the program manipulates is an exact multiple of 0.01:
  the literals 0.3, 0.5 and the clamped `min(0.9, max(0.6, len(text)/100))`.
  Confidences are therefore embedded as exact `Nat` hundredths (value x stands
  for the float x/100): 0.3 is `30`, the threshold `> 0.7` is `> 70`, and
  `len(text)/100` clamped to `[0.6, 0.9]` is `min 90 (max 60 len)`.  On these
  values float comparison agrees exactly with this integer comparison.
* External collaborators (the langdetect detector, the Anthropic client, the
  GoogleTranslator) are oracle parameters; an exception raised by one is an
  `Option`/`Except` failure value.
* Timestamps (`datetime.now()`, SQLite `CURRENT_TIMESTAMP`) are a `Nat`
  parameter `now` passed to each operation.
-/

/-- Python `str.lower()` on the codepoint list of a string. -/
def pyLower (s : List Char) : List Char := s.map Char.toLower

/-- Python `str.upper()` on the codepoint list of a string. -/
def pyUpper (s : List Char) : List Char := s.map Char.toUpper

/-- Python `str.strip()`: drop leading and trailing whitespace. -/
def pyStrip (s : List Char) : List Char :=
  ((s.dropWhile Char.isWhitespace).reverse.dropWhile Char.isWhitespace).reverse

/-- Python substring test `needle in hay` (empty needle is contained). -/
def containsSub (hay needle : List Char) : Bool :=
  match hay with
  | [] => needle.isEmpty
  | _ :: t => needle.isPrefixOf hay || containsSub t needle

/-- Conversation-history event: the dicts appended to
`user_context['conversation_history']` in `handle_message` (lines 447-453 and
474-479 of `teacher_bot.py`).  Confidence is in `Nat` hundredths. -/
inductive HistEvent where
  | userQuestion (timestamp : Nat) (user_message : String)
      (detected_language : String) (language_confidence : Nat)
  | teachingResponse (timestamp : Nat) (bot_response : String)
      (response_language : String)
deriving DecidableEq, Repr

/-- The `progress` dict: `{'total_interactions': ..., 'achievements': [...]}`. -/
structure Progress where
  total_interactions : Nat
  achievements : List String
deriving DecidableEq, Repr

/-- The per-user context dict / `users` table row of `teacher_bot.py`.
Confidence is in `Nat` hundredths; timestamps are abstract `Nat` instants. -/
structure UserProfile where
  user_id : Nat
  first_name : String
  learning_goals : List String
  difficulty_level : String
  learning_style : String
  conversation_history : List HistEvent
  progress : Progress
  preferred_language : String
  detected_language : String
  language_confidence : Nat
  created_at : Nat
  last_active : Nat
deriving DecidableEq, Repr

/-- Oracle for `langdetect.detect`: `none` models `LangDetectException` or any
other raised error. -/
def Detector : Type := List Char → Option String

/-- Oracle for the Anthropic client call: given system prompt and question,
returns the model text or fails (any API exception). -/
def LLM : Type := String → String → Except String String

/-- Oracle for `GoogleTranslator(source=..., target=...).translate(text)`:
arguments are source language, target language, text. -/
def Translator : Type := String → String → String → Except String String

/-- The `language_map` alias normalization in `detect_language`
(lines 141-148): `dict.get(detected_lang, detected_lang)`. -/
def language_map_get (detected_lang : String) : String :=
  if detected_lang = "zh-cn" then "zh"
  else if detected_lang = "zh-tw" then "zh"
  else if detected_lang = "pt" then "pt"
  else if detected_lang = "ca" then "es"
  else detected_lang

/-- `TeacherBot.detect_language` (lines 130-160).  Returns the detected code
and a confidence in hundredths: short trimmed text gives `("en", 50)`
(float 0.5); a successful detection gives the alias-normalized code with
confidence `min 90 (max 60 len)` (float `min(0.9, max(0.6, len/100))`);
a detector failure or unexpected error gives `("en", 30)` (float 0.3). -/
def detect_language (detector : Detector) (text : String) : String × Nat :=
  let clean_text := pyStrip text.data
  if clean_text.length < 3 then
    ("en", 50)
  else
    match detector clean_text with
    | some lang =>
        let detected_lang := language_map_get lang
        let confidence := min 90 (max 60 clean_text.length)
        (detected_lang, confidence)
    | none => ("en", 30)

/-- `TeacherBot.get_language_name` (lines 162-234): `dict.get` over the
language-name table with fallback `lang_code.upper()`. -/
def get_language_name (lang_code : String) : String :=
  let table : List (String × String) :=
    [("en", "English"), ("es", "Spanish"), ("fr", "French"), ("de", "German"),
     ("it", "Italian"), ("pt", "Portuguese"), ("ru", "Russian"), ("zh", "Chinese"),
     ("ja", "Japanese"), ("ko", "Korean"), ("ar", "Arabic"), ("hi", "Hindi"),
     ("nl", "Dutch"), ("sv", "Swedish"), ("da", "Danish"), ("no", "Norwegian"),
     ("fi", "Finnish"), ("pl", "Polish"), ("tr", "Turkish"), ("th", "Thai"),
     ("vi", "Vietnamese"), ("id", "Indonesian"), ("ms", "Malay"), ("tl", "Filipino"),
     ("he", "Hebrew"), ("fa", "Persian"), ("ur", "Urdu"), ("bn", "Bengali"),
     ("ta", "Tamil"), ("te", "Telugu"), ("ml", "Malayalam"), ("kn", "Kannada"),
     ("gu", "Gujarati"), ("pa", "Punjabi"), ("mr", "Marathi"), ("ne", "Nepali"),
     ("si", "Sinhala"), ("my", "Myanmar"), ("km", "Khmer"), ("lo", "Lao"),
     ("ka", "Georgian"), ("am", "Amharic"), ("sw", "Swahili"), ("zu", "Zulu"),
     ("af", "Afrikaans"), ("sq", "Albanian"), ("az", "Azerbaijani"), ("be", "Belarusian"),
     ("bg", "Bulgarian"), ("ca", "Catalan"), ("hr", "Croatian"), ("cs", "Czech"),
     ("et", "Estonian"), ("eu", "Basque"), ("gl", "Galician"), ("hu", "Hungarian"),
     ("is", "Icelandic"), ("ga", "Irish"), ("lv", "Latvian"), ("lt", "Lithuanian"),
     ("mk", "Macedonian"), ("mt", "Maltese"), ("ro", "Romanian"), ("sk", "Slovak"),
     ("sl", "Slovenian"), ("sr", "Serbian"), ("uk", "Ukrainian"), ("cy", "Welsh")]
  match table.find? (fun p => p.1 = lang_code) with
  | some p => p.2
  | none => String.mk (pyUpper lang_code.data)

/-- Result of a response generator call, recording the reply text together
with the `response_language` the call resolved (the code embeds it in the
system prompt on the LLM path and uses it as the translation target on the
rule-based path). -/
structure GenResult where
  response_language : String
  text : String
deriving DecidableEq, Repr

/-- The beginner template of `generate_rule_based_response` (lines 585-602). -/
def beginner_template (question : String) : String :=
  "\n📚 **Great question!** Let me explain this in simple terms:\n\n"
  ++ question ++ " is a concept that...\n\n🔍 **Simple explanation:**\nThink of it like... (analogy)\n\n📝 **Key points to remember:**\n• Point 1\n• Point 2\n• Point 3\n\n❓ **Want to explore more?** Ask me:\n• \"Can you give me an example?\"\n• \"How is this used in real life?\"\n• \"What\x27s the next step to learn?\"\n                "

/-- The non-beginner template of `generate_rule_based_response`
(lines 604-619). -/
def advanced_template (question : String) : String :=
  "\n🎓 **Excellent question!** Here\x27s a detailed explanation:\n\n"
  ++ question ++ " involves several important concepts...\n\n🧠 **Core principles:**\nThe fundamental idea is...\n\n🔬 **Advanced concepts:**\nThis connects to...\n\n💡 **Practical applications:**\nYou\x27ll see this used in...\n\n🚀 **Ready for the next level?** Try asking about related topics or request practice problems!\n                "

/-- The default encouraging template of `generate_rule_based_response`
(lines 621-633). -/
def default_template : String :=
  "\n🤔 **Interesting question!** I\x27d love to help you learn about this.\n\nCould you be more specific about what aspect you\x27d like to understand? For example:\n• Are you looking for a basic explanation?\n• Do you want to see examples?\n• Are you trying to solve a specific problem?\n\nThe more details you give me, the better I can tailor my explanation to your needs!\n\n💡 **Tip:** Try starting your questions with phrases like \"Explain...\", \"How does...\", or \"What is...\"\n            "

/-- Template selection of `generate_rule_based_response` (lines 583-633):
keyword match on the lowercased question, then a difficulty branch. -/
def english_response_of (question difficulty : String) : String :=
  if containsSub (pyLower question.data) "what is".data
      || containsSub (pyLower question.data) "explain".data then
    if difficulty = "beginner" then beginner_template question
    else advanced_template question
  else default_template

/-- `TeacherBot.generate_rule_based_response` (lines 572-645).  Resolves the
response language (`preferred if confidence > 0.6 else detected`, in
hundredths `> 60`), selects the English template, and translates via the
Translator oracle (source "en") when the response language is not "en",
falling back to the English text if the translator fails. -/
def generate_rule_based_response (translator : Translator) (question : String)
    (user_context : UserProfile) : GenResult :=
  let difficulty := user_context.difficulty_level
  let preferred_language := user_context.preferred_language
  let detected_language := user_context.detected_language
  let language_confidence := user_context.language_confidence
  let response_language :=
    if language_confidence > 60 then preferred_language else detected_language
  let english_response := english_response_of question difficulty
  if response_language ≠ "en" then
    match translator "en" response_language english_response with
    | Except.ok translated => { response_language := response_language, text := translated }
    | Except.error _ => { response_language := response_language, text := english_response }
  else
    { response_language := response_language, text := english_response }

/-- The system prompt built in `generate_educational_response`
(lines 518-548), assembled from difficulty, learning style, goals, and the
resolved response language name and code. -/
def system_prompt (difficulty learning_style : String) (goals : List String)
    (language_name response_language : String) : String :=
  "You are an expert teacher and tutor. Your student has these characteristics:\n- Difficulty level: "
  ++ difficulty ++ "\n- Learning style: " ++ learning_style
  ++ "\n- Learning goals: " ++ String.intercalate ", " goals
  ++ "\n- Preferred language: " ++ language_name ++ " (" ++ response_language ++ ")\n\nIMPORTANT: Respond in "
  ++ language_name ++ " (" ++ response_language ++ "). If the user\x27s question is in "
  ++ language_name ++ ", respond entirely in " ++ language_name
  ++ ". Maintain natural, fluent language appropriate for educational content.\n\nProvide educational responses that:\n1. Match the student\x27s difficulty level ("
  ++ difficulty ++ ")\n2. Use their preferred learning style (" ++ learning_style
  ++ ")\n3. Include examples and analogies appropriate for their level and cultural context\n4. Break down complex concepts into digestible parts\n5. Encourage questions and curiosity\n6. Offer practice opportunities when relevant\n7. Use emojis strategically for engagement\n8. Keep responses concise but comprehensive for Telegram\n9. Respond in "
  ++ language_name ++ " language naturally and fluently\n\nFor difficulty levels:\n- Beginner: Use simple language, analogies, step-by-step explanations\n- Intermediate: Balance detail with clarity, provide examples\n- Advanced: Use technical language, explore deeper concepts\n\nFor learning styles:\n- Visual: Use descriptions, step-by-step lists, structured formatting\n- Auditory: Conversational tone, explanations through dialogue\n- Kinesthetic: Hands-on examples, practical applications\n- Balanced: Mix of all approaches\n\nBe encouraging, patient, and adapt your explanations accordingly. Remember to respond in "
  ++ language_name ++ "."

/-- `TeacherBot.generate_educational_response` (lines 502-570).  Resolves the
response language once (`preferred if confidence > 0.6 else detected`, in
hundredths `> 60`); if an Anthropic client is configured, calls it with the
system prompt and returns its text, falling through to the rule-based
generator on any API error; with no client it uses the rule-based
generator directly. -/
def generate_educational_response (anthropic_client : Option LLM)
    (translator : Translator) (question : String)
    (user_context : UserProfile) : GenResult :=
  let difficulty := user_context.difficulty_level
  let learning_style := user_context.learning_style
  let goals := user_context.learning_goals
  let preferred_language := user_context.preferred_language
  let detected_language := user_context.detected_language
  let language_confidence := user_context.language_confidence
  let response_language :=
    if language_confidence > 60 then preferred_language else detected_language
  let language_name := get_language_name response_language
  match anthropic_client with
  | some client =>
      match client (system_prompt difficulty learning_style goals language_name
          response_language) question with
      | Except.ok text => { response_language := response_language, text := text }
      | Except.error _ => generate_rule_based_response translator question user_context
  | none => generate_rule_based_response translator question user_context

/-- Goal-keyword test of `handle_message` line 459:
`any(word in message_text.lower() for word in [...])`. -/
def containsGoalKeyword (message_text : String) : Bool :=
  ["learn", "study", "understand", "master", "teach me"].any
    (fun word => containsSub (pyLower message_text.data) word.data)

/-- The goal-confirmation reply of `handle_message` (lines 462-466). -/
def goal_added_reply (message_text : String) : String :=
  "✅ Added to your learning goals: **" ++ message_text
  ++ "**\n\nGreat! I\x27ll help you achieve this goal. What specific aspect would you like to start with?"

/-- Core of `TeacherBot.handle_message` (lines 432-500), acting on an already
loaded `user_context` and returning the updated context together with the
reply text.  Loading and persistence are in the `handle_message` wrapper
below; the source saves inside both branches, which has the same effect on
the store as saving the returned context. -/
def handle_message_core (detector : Detector) (anthropic_client : Option LLM)
    (translator : Translator) (now : Nat) (first_name message_text : String)
    (uc0 : UserProfile) : UserProfile × String :=
  let dc := detect_language detector message_text
  let detected_lang := dc.1
  let confidence := dc.2
  let uc1 := { uc0 with
    first_name := first_name
    detected_language := detected_lang
    language_confidence := confidence }
  let uc2 :=
    if confidence > 70 ∧ uc1.preferred_language = "en" then
      { uc1 with preferred_language := detected_lang }
    else uc1
  let uc3 := { uc2 with
    conversation_history := uc2.conversation_history
      ++ [HistEvent.userQuestion now message_text detected_lang confidence] }
  let uc4 := { uc3 with
    progress := { uc3.progress with
      total_interactions := uc3.progress.total_interactions + 1 } }
  if containsGoalKeyword message_text ∧ uc4.learning_goals.length < 10 then
    let uc5 := { uc4 with learning_goals := uc4.learning_goals ++ [message_text] }
    (uc5, goal_added_reply message_text)
  else
    let gen := generate_educational_response anthropic_client translator message_text uc4
    let response := gen.text
    let uc5 := { uc4 with
      conversation_history := uc4.conversation_history
        ++ [HistEvent.teachingResponse now response uc4.preferred_language] }
    let total_interactions := uc5.progress.total_interactions
    let achievements := uc5.progress.achievements
    let ar : List String × String :=
      if total_interactions = 1 ∧ "First Question!" ∉ achievements then
        (achievements ++ ["First Question!"],
         response ++ "\n\n🏆 **Achievement Unlocked:** First Question!")
      else if total_interactions = 10 ∧ "Active Learner!" ∉ achievements then
        (achievements ++ ["Active Learner!"],
         response ++ "\n\n🏆 **Achievement Unlocked:** Active Learner!")
      else if 3 ≤ uc5.learning_goals.length ∧ "Goal Setter!" ∉ achievements then
        (achievements ++ ["Goal Setter!"],
         response ++ "\n\n🏆 **Achievement Unlocked:** Goal Setter!")
      else (achievements, response)
    let uc6 := { uc5 with progress := { uc5.progress with achievements := ar.1 } }
    (uc6, ar.2)

/-- The user store: the `users` SQLite table keyed by `user_id`.  A row has
the same logical columns as `UserProfile`. -/
def Store : Type := Nat → Option UserProfile

/-- Python `list[-50:]` generalized: the last `n` elements of a list in their
original order. -/
def lastN (n : Nat) (l : List α) : List α := l.drop (l.length - n)

/-- `TeacherBot.save_user_context` (lines 107-128): `INSERT OR REPLACE` of all
columns EXCEPT `created_at`, truncating `conversation_history` to the last 50
entries and writing `datetime.now()` into `last_active`.  Because
`INSERT OR REPLACE` deletes the old row and inserts a fresh one, the omitted
`created_at` column falls back to its schema default `CURRENT_TIMESTAMP`,
i.e. the save time `now` — it is NOT carried over from the old row. -/
def save_user_context (store : Store) (user_context : UserProfile) (now : Nat) : Store :=
  let row : UserProfile := {
    user_id := user_context.user_id
    first_name := user_context.first_name
    learning_goals := user_context.learning_goals
    difficulty_level := user_context.difficulty_level
    learning_style := user_context.learning_style
    conversation_history := lastN 50 user_context.conversation_history
    progress := user_context.progress
    preferred_language := user_context.preferred_language
    detected_language := user_context.detected_language
    language_confidence := user_context.language_confidence
    created_at := now
    last_active := now }
  fun uid => if uid = user_context.user_id then some row else store uid

/-- `TeacherBot.get_user_context` (lines 66-105): read the row for `user_id`,
applying the `or 'en'` fallbacks on the language columns, or create a fresh
default context when no row exists. -/
def get_user_context (store : Store) (user_id : Nat) (now : Nat) : UserProfile :=
  match store user_id with
  | some row =>
      { user_id := row.user_id
        first_name := row.first_name
        learning_goals := row.learning_goals
        difficulty_level := row.difficulty_level
        learning_style := row.learning_style
        conversation_history := row.conversation_history
        progress := row.progress
        preferred_language := if row.preferred_language = "" then "en" else row.preferred_language
        detected_language := if row.detected_language = "" then "en" else row.detected_language
        language_confidence := row.language_confidence
        created_at := row.created_at
        last_active := row.last_active }
  | none =>
      { user_id := user_id
        first_name := ""
        learning_goals := []
        difficulty_level := "beginner"
        learning_style := "balanced"
        conversation_history := []
        progress := { total_interactions := 0, achievements := [] }
        preferred_language := "en"
        detected_language := "en"
        language_confidence := 0
        created_at := now
        last_active := now }

/-- `TeacherBot.handle_message` (lines 428-500) end to end over the store:
load the context for `user_id`, run the core, persist the updated context,
return the new store and the reply text sent to the user. -/
def handle_message (detector : Detector) (anthropic_client : Option LLM)
    (translator : Translator) (store : Store) (user_id now : Nat)
    (first_name message_text : String) : Store × String :=
  let user_context := get_user_context store user_id now
  let r := handle_message_core detector anthropic_client translator now
    first_name message_text user_context
  (save_user_context store r.1 now, r.2)

/-- The `lang_` branch of `TeacherBot.button_callback` (lines 412-426,
together with the load at line 338): the user picks a language from the
/language menu; `'auto'` adopts the last detected language, any other code is
stored as the preferred language verbatim; the context is persisted. -/
def button_callback_lang (store : Store) (user_id now : Nat)
    (lang_code : String) : Store :=
  let user_context := get_user_context store user_id now
  let uc :=
    if lang_code = "auto" then
      { user_context with preferred_language := user_context.detected_language }
    else
      { user_context with preferred_language := lang_code }
  save_user_context store uc now

/-- Number of history entries currently persisted for `user_id` (0 when the
user has no row yet). -/
def storedLen (store : Store) (user_id : Nat) : Nat :=
  match store user_id with
  | some row => row.conversation_history.length
  | none => 0

/-- Sequential processing of a list of inbound messages
`(now, first_name, text)` through `handle_message`, for one user. -/
def runMessages (detector : Detector) (anthropic_client : Option LLM)
    (translator : Translator) (user_id : Nat)
    (msgs : List (Nat × String × String)) (store : Store) : Store :=
  match msgs with
  | [] => store
  | m :: rest =>
      runMessages detector anthropic_client translator user_id rest
        (handle_message detector anthropic_client translator store user_id
          m.1 m.2.1 m.2.2).1

/-- Wellformedness of a store: every row is filed under its own `user_id`
(the `users` table has `user_id INTEGER PRIMARY KEY`, and the `WHERE
user_id = ?` lookup can only return such a row). -/
def StoreWF (store : Store) : Prop :=
  ∀ uid row, store uid = some row → row.user_id = uid

/-- The empty store: no user has a row yet. -/
def emptyStore : Store := fun _ => none

/-- Fixture detector that classifies every text as French. -/
def frDetector : Detector := fun _ => some "fr"

/-- Fixture translator that always succeeds and returns the text unchanged. -/
def okTranslator : Translator := fun _ _ text => Except.ok text

/-- Fixture translator that always fails. -/
def failTranslator : Translator := fun _ _ _ => Except.error "service unavailable"

/-- Fixture profile for the persistence round-trip: goals `["a", "b"]`,
achievements `["First Question!"]`, difficulty `"advanced"`, created at
instant 0. -/
def roundTripProfile : UserProfile :=
  { user_id := 42
    first_name := "Ada"
    learning_goals := ["a", "b"]
    difficulty_level := "advanced"
    learning_style := "balanced"
    conversation_history := []
    progress := { total_interactions := 5, achievements := ["First Question!"] }
    preferred_language := "en"
    detected_language := "en"
    language_confidence := 80
    created_at := 0
    last_active := 0 }

/-- Fixture message of exactly 70 non-whitespace characters: its detection
confidence is exactly 70 hundredths (float 0.70). -/
def msg70 : String := String.mk (List.replicate 70 'a')

/-- Fixture message of exactly 71 non-whitespace characters: its detection
confidence is exactly 71 hundredths (float 0.71). -/
def msg71 : String := String.mk (List.replicate 71 'a')

/-- The store after saving the round-trip fixture profile at instant 0. -/
def savedOnce : Store := save_user_context emptyStore roundTripProfile 0

/-- The fixture profile as reloaded from the store right after the first save. -/
def reloadedOnce : UserProfile := get_user_context savedOnce 42 0

/-- The store after saving the reloaded fixture profile again at instant 5. -/
def savedTwice : Store := save_user_context savedOnce reloadedOnce 5

/-- The fixture profile as reloaded after the second save. -/
def reloadedTwice : UserProfile := get_user_context savedTwice 42 5

/-- Total-interactions counter: `handle_message` increments it by exactly one
for every inbound message, before the goal-capture branch. -/
lemma hmc_total (detector : Detector) (client : Option LLM) (translator : Translator)
    (now : Nat) (name msg : String) (uc : UserProfile) :
    (handle_message_core detector client translator now name msg uc).1.progress.total_interactions
      = uc.progress.total_interactions + 1 := by
  simp only [handle_message_core]
  split <;> split <;> rfl

/-- Preferred-language field of the handler result: adopted from detection
exactly under the `confidence > 0.7 and preferred == 'en'` guard. -/
lemma hmc_preferred (detector : Detector) (client : Option LLM) (translator : Translator)
    (now : Nat) (name msg : String) (uc : UserProfile) :
    (handle_message_core detector client translator now name msg uc).1.preferred_language
      = (if (detect_language detector msg).2 > 70 ∧ uc.preferred_language = "en"
          then (detect_language detector msg).1 else uc.preferred_language) := by
  simp only [handle_message_core]
  split <;> split <;> rfl

/-- Learning-goals field of the handler result. -/
lemma hmc_goals (detector : Detector) (client : Option LLM) (translator : Translator)
    (now : Nat) (name msg : String) (uc : UserProfile) :
    (handle_message_core detector client translator now name msg uc).1.learning_goals
      = (if containsGoalKeyword msg ∧ uc.learning_goals.length < 10
          then uc.learning_goals ++ [msg] else uc.learning_goals) := by
  simp only [handle_message_core]
  by_cases ha : (detect_language detector msg).2 > 70 ∧ uc.preferred_language = "en" <;>
    by_cases hg : containsGoalKeyword msg ∧ uc.learning_goals.length < 10 <;>
      simp [ha, hg]

/-- The handler never changes the user id of the context. -/
lemma hmc_user_id (detector : Detector) (client : Option LLM) (translator : Translator)
    (now : Nat) (name msg : String) (uc : UserProfile) :
    (handle_message_core detector client translator now name msg uc).1.user_id = uc.user_id := by
  simp only [handle_message_core]
  split <;> split <;> rfl

/-- On the goal-capture branch the achievements list is untouched. -/
lemma hmc_achievements_goal (detector : Detector) (client : Option LLM) (translator : Translator)
    (now : Nat) (name msg : String) (uc : UserProfile)
    (h : containsGoalKeyword msg ∧ uc.learning_goals.length < 10) :
    (handle_message_core detector client translator now name msg uc).1.progress.achievements
      = uc.progress.achievements := by
  simp only [handle_message_core]
  by_cases ha : (detect_language detector msg).2 > 70 ∧ uc.preferred_language = "en" <;>
    simp [ha, h]

/-- On the goal-capture branch the reply is the goal-confirmation message. -/
lemma hmc_goalreply (detector : Detector) (client : Option LLM) (translator : Translator)
    (now : Nat) (name msg : String) (uc : UserProfile)
    (h : containsGoalKeyword msg ∧ uc.learning_goals.length < 10) :
    (handle_message_core detector client translator now name msg uc).2
      = goal_added_reply msg := by
  simp only [handle_message_core]
  by_cases ha : (detect_language detector msg).2 > 70 ∧ uc.preferred_language = "en" <;>
    simp [ha, h]

/-- On the goal-capture branch the result does not depend on the LLM client or
the translator: the response generator is never consulted. -/
lemma hmc_indep (detector : Detector) (c1 c2 : Option LLM) (t1 t2 : Translator)
    (now : Nat) (name msg : String) (uc : UserProfile)
    (h : containsGoalKeyword msg ∧ uc.learning_goals.length < 10) :
    handle_message_core detector c1 t1 now name msg uc
      = handle_message_core detector c2 t2 now name msg uc := by
  simp only [handle_message_core]
  by_cases ha : (detect_language detector msg).2 > 70 ∧ uc.preferred_language = "en" <;>
    simp [ha, h]

/-- On the goal-capture branch exactly one event (the user question) is
appended to the conversation history. -/
lemma hmc_hist_goal (detector : Detector) (client : Option LLM) (translator : Translator)
    (now : Nat) (name msg : String) (uc : UserProfile)
    (h : containsGoalKeyword msg ∧ uc.learning_goals.length < 10) :
    (handle_message_core detector client translator now name msg uc).1.conversation_history
      = uc.conversation_history
        ++ [HistEvent.userQuestion now msg (detect_language detector msg).1
              (detect_language detector msg).2] := by
  simp only [handle_message_core]
  by_cases ha : (detect_language detector msg).2 > 70 ∧ uc.preferred_language = "en" <;>
    simp [ha, h]

/-- On the teaching branch a user question and a teaching response are
appended to the conversation history, in that order. -/
lemma hmc_hist_teaching (detector : Detector) (client : Option LLM) (translator : Translator)
    (now : Nat) (name msg : String) (uc : UserProfile)
    (h : ¬ (containsGoalKeyword msg = true ∧ uc.learning_goals.length < 10)) :
    ∃ resp rl,
      (handle_message_core detector client translator now name msg uc).1.conversation_history
        = uc.conversation_history
          ++ [HistEvent.userQuestion now msg (detect_language detector msg).1
                (detect_language detector msg).2,
              HistEvent.teachingResponse now resp rl] := by
  simp only [handle_message_core]
  by_cases ha : (detect_language detector msg).2 > 70 ∧ uc.preferred_language = "en" <;>
    exact ⟨_, _, by simp [ha, h]; exact ⟨rfl, rfl⟩⟩

/-- On the teaching branch the achievements list is updated by the elif chain
of lines 485-493, evaluated against the post-increment interaction count. -/
lemma hmc_ach_teaching (detector : Detector) (client : Option LLM) (translator : Translator)
    (now : Nat) (name msg : String) (uc : UserProfile)
    (h : ¬ (containsGoalKeyword msg = true ∧ uc.learning_goals.length < 10)) :
    (handle_message_core detector client translator now name msg uc).1.progress.achievements
      = (if uc.progress.total_interactions + 1 = 1
            ∧ "First Question!" ∉ uc.progress.achievements
         then uc.progress.achievements ++ ["First Question!"]
         else if uc.progress.total_interactions + 1 = 10
            ∧ "Active Learner!" ∉ uc.progress.achievements
         then uc.progress.achievements ++ ["Active Learner!"]
         else if 3 ≤ uc.learning_goals.length
            ∧ "Goal Setter!" ∉ uc.progress.achievements
         then uc.progress.achievements ++ ["Goal Setter!"]
         else uc.progress.achievements) := by
  simp only [handle_message_core]
  by_cases ha : (detect_language detector msg).2 > 70 ∧ uc.preferred_language = "en" <;>
    (simp [ha, h]; split_ifs <;> simp_all)

/-- Response language of the rule-based generator. -/
lemma rb_lang (translator : Translator) (question : String) (uc : UserProfile) :
    (generate_rule_based_response translator question uc).response_language
      = (if uc.language_confidence > 60 then uc.preferred_language
          else uc.detected_language) := by
  simp only [generate_rule_based_response]
  split <;> split <;> (try rfl) <;> (split <;> rfl)

/-- Response language of the full generator (LLM path and fallback agree). -/
lemma edu_lang (client : Option LLM) (translator : Translator) (question : String)
    (uc : UserProfile) :
    (generate_educational_response client translator question uc).response_language
      = (if uc.language_confidence > 60 then uc.preferred_language
          else uc.detected_language) := by
  simp only [generate_educational_response]
  split
  · split
    · rfl
    · exact rb_lang ..
  · exact rb_lang ..

/-- Rule-based reply text when the response language is not the default:
whatever the translator returns on the English template, with English
fallback on error. -/
lemma rb_text_translated (translator : Translator) (question : String) (uc : UserProfile)
    (hne : (if uc.language_confidence > 60 then uc.preferred_language
              else uc.detected_language) ≠ "en") :
    (generate_rule_based_response translator question uc).text
      = (match translator "en"
            (if uc.language_confidence > 60 then uc.preferred_language
              else uc.detected_language)
            (english_response_of question uc.difficulty_level) with
         | Except.ok t => t
         | Except.error _ => english_response_of question uc.difficulty_level) := by
  simp only [generate_rule_based_response]
  rw [if_pos hne]
  split <;> simp_all

/-- Rule-based reply when the response language is the default: the English
template verbatim, with no translator involvement. -/
lemma rb_text_en (translator : Translator) (question : String) (uc : UserProfile)
    (hen : (if uc.language_confidence > 60 then uc.preferred_language
              else uc.detected_language) = "en") :
    generate_rule_based_response translator question uc
      = { response_language := "en",
          text := english_response_of question uc.difficulty_level } := by
  simp only [generate_rule_based_response]
  rw [if_neg (by simp [hen])]
  simp [hen]

/-- Length of the last-n slice. -/
lemma lastN_length (n : Nat) (l : List α) : (lastN n l).length = min n l.length := by
  simp [lastN]; omega

/-- The last-n slice is a suffix of the original list. -/
lemma lastN_suffix (n : Nat) (l : List α) : lastN n l <:+ l := List.drop_suffix _ _

/-- Looking up the saved user id right after a save returns the stored row. -/
lemma save_lookup (store : Store) (uc : UserProfile) (now : Nat) :
    (save_user_context store uc now) uc.user_id = some
      { user_id := uc.user_id
        first_name := uc.first_name
        learning_goals := uc.learning_goals
        difficulty_level := uc.difficulty_level
        learning_style := uc.learning_style
        conversation_history := lastN 50 uc.conversation_history
        progress := uc.progress
        preferred_language := uc.preferred_language
        detected_language := uc.detected_language
        language_confidence := uc.language_confidence
        created_at := now
        last_active := now } := by
  simp [save_user_context]

/-- Loading from a wellformed store yields a context carrying the queried id. -/
lemma get_user_id (store : Store) (user_id now : Nat) (hwf : StoreWF store) :
    (get_user_context store user_id now).user_id = user_id := by
  simp only [get_user_context]
  split
  · next row heq => exact hwf user_id row heq
  · rfl

/-- The loaded history length equals the stored history length. -/
lemma get_history (store : Store) (user_id now : Nat) :
    (get_user_context store user_id now).conversation_history.length
      = storedLen store user_id := by
  simp only [get_user_context, storedLen]
  split <;> simp_all

/-- Saving preserves store wellformedness. -/
lemma save_wf (store : Store) (uc : UserProfile) (now : Nat) (hwf : StoreWF store) :
    StoreWF (save_user_context store uc now) := by
  intro uid row h
  simp only [save_user_context] at h
  split at h
  · next he => rw [Option.some_inj] at h; simp [← h, he]
  · next he => exact hwf uid row h

/-- One handled message grows the in-memory history by one or two events. -/
lemma hmc_hist_len (detector : Detector) (client : Option LLM) (translator : Translator)
    (now : Nat) (name msg : String) (uc : UserProfile) :
    ∃ d, (d = 1 ∨ d = 2)
      ∧ (handle_message_core detector client translator now name msg uc).1.conversation_history.length
          = uc.conversation_history.length + d := by
  by_cases h : containsGoalKeyword msg = true ∧ uc.learning_goals.length < 10
  · exact ⟨1, Or.inl rfl,
      by rw [hmc_hist_goal detector client translator now name msg uc h]; simp⟩
  · obtain ⟨resp, rl, hh⟩ := hmc_hist_teaching detector client translator now name msg uc h
    exact ⟨2, Or.inr rfl, by rw [hh]; simp⟩

/-- Stored history length right after a save: the 50-cap applied. -/
lemma storedLen_save (store : Store) (uc : UserProfile) (now : Nat) :
    storedLen (save_user_context store uc now) uc.user_id
      = min 50 uc.conversation_history.length := by
  simp [storedLen, save_user_context, lastN_length]

/-- One full message round (load, handle, save) keeps the store wellformed and
sets the stored history length to the 50-capped previous length plus one or
two events. -/
lemma handle_message_step (detector : Detector) (client : Option LLM) (translator : Translator)
    (store : Store) (uid now : Nat) (name msg : String) (hwf : StoreWF store) :
    StoreWF (handle_message detector client translator store uid now name msg).1
    ∧ ∃ d, (d = 1 ∨ d = 2)
      ∧ storedLen (handle_message detector client translator store uid now name msg).1 uid
          = min (storedLen store uid + d) 50 := by
  refine ⟨save_wf _ _ _ hwf, ?_⟩
  obtain ⟨d, hd, hlen⟩ := hmc_hist_len detector client translator now name msg
    (get_user_context store uid now)
  refine ⟨d, hd, ?_⟩
  have hk : (handle_message_core detector client translator now name msg
      (get_user_context store uid now)).1.user_id = uid :=
    (hmc_user_id ..).trans (get_user_id store uid now hwf)
  have hs := storedLen_save store (handle_message_core detector client translator now name msg
    (get_user_context store uid now)).1 now
  rw [hk] at hs
  simp only [handle_message]
  rw [hs, hlen, get_history]
  omega

/-- Sequentially handled messages keep the stored history at most 50 long and
grow it by at least one entry per message up to the cap. -/
lemma runMessages_storedLen (detector : Detector) (client : Option LLM)
    (translator : Translator) (uid : Nat) (msgs : List (Nat × String × String)) :
    ∀ store : Store, StoreWF store → storedLen store uid ≤ 50 →
      StoreWF (runMessages detector client translator uid msgs store)
      ∧ storedLen (runMessages detector client translator uid msgs store) uid ≤ 50
      ∧ min (storedLen store uid + msgs.length) 50
          ≤ storedLen (runMessages detector client translator uid msgs store) uid := by
  induction msgs with
  | nil =>
      intro store hwf hle
      refine ⟨hwf, hle, ?_⟩
      simp only [runMessages, List.length_nil, Nat.add_zero]
      omega
  | cons m rest ih =>
      intro store hwf hle
      obtain ⟨hwf', d, hd, hlen⟩ := handle_message_step detector client translator
        store uid m.1 m.2.1 m.2.2 hwf
      obtain ⟨h1, h2, h3⟩ := ih _ hwf' (by omega)
      refine ⟨h1, h2, ?_⟩
      simp only [runMessages] at h3 ⊢
      rw [hlen] at h3
      simp only [List.length_cons]
      omega

/-- The empty store is wellformed. -/
lemma emptyStore_wf : StoreWF emptyStore := by
  intro uid row h
  simp [emptyStore] at h

/-- No history is stored for any user of the empty store. -/
lemma emptyStore_len (uid : Nat) : storedLen emptyStore uid = 0 := by
  simp [storedLen, emptyStore]

/-- Loading right after a save of `uc` yields `uc.preferred_language`
back (modulo the empty-string fallback of the load path). -/
lemma get_after_save_preferred (store : Store) (uc : UserProfile) (now now2 : Nat) :
    (get_user_context (save_user_context store uc now) uc.user_id now2).preferred_language
      = (if uc.preferred_language = "" then "en" else uc.preferred_language) := by
  simp [get_user_context, save_user_context]

/-- C1 (amended): `progress.total_interactions` is incremented exactly once
for every inbound message — including messages taking the goal-capture early
return, since the increment (line 456) precedes the goal-keyword check
(line 459) — and is therefore monotonically non-decreasing; achievement
thresholds are consequently evaluated against a count that includes
goal-capture messages. -/
theorem total_interactions_increment_per_message (detector : Detector)
    (client : Option LLM) (translator : Translator) (now : Nat)
    (name msg : String) (uc : UserProfile) :
    (handle_message_core detector client translator now name msg uc).1.progress.total_interactions
      = uc.progress.total_interactions + 1
    ∧ uc.progress.total_interactions
      ≤ (handle_message_core detector client translator now name msg uc).1.progress.total_interactions := by
  refine ⟨hmc_total .., ?_⟩
  rw [hmc_total]
  omega

/-- C1 counterexample: on a fresh profile the message "I want to learn python"
takes the goal-capture early return (keyword present, fewer than 10 goals),
yet `total_interactions` goes from 0 to 1 — the counter IS incremented before
the early return, contrary to the claim. -/
theorem goal_capture_increments_counter_cex :
    (containsGoalKeyword "I want to learn python" = true
      ∧ (get_user_context emptyStore 1 0).learning_goals.length < 10)
    ∧ (get_user_context emptyStore 1 0).progress.total_interactions = 0
    ∧ (handle_message_core frDetector none okTranslator 0 "Ann" "I want to learn python"
        (get_user_context emptyStore 1 0)).1.progress.total_interactions = 1
    ∧ (handle_message_core frDetector none okTranslator 0 "Ann" "I want to learn python"
        (get_user_context emptyStore 1 0)).2 = goal_added_reply "I want to learn python" := by
  decide

/-- C2: achievement evaluation on the teaching path is the first-match-only
elif chain in the fixed order First Question! (count 1), Active Learner!
(count 10), Goal Setter! (3 or more goals), each grant guarded by
exact-string membership; on any message at most one achievement is granted
(the list grows by at most one) and achievements already present are never
removed (the old list is a prefix of the new one). -/
theorem achievement_chain_first_match (detector : Detector) (client : Option LLM)
    (translator : Translator) (now : Nat) (name msg : String) (uc : UserProfile) :
    uc.progress.achievements
      <+: (handle_message_core detector client translator now name msg uc).1.progress.achievements
    ∧ (handle_message_core detector client translator now name msg uc).1.progress.achievements.length
        ≤ uc.progress.achievements.length + 1
    ∧ (¬ (containsGoalKeyword msg = true ∧ uc.learning_goals.length < 10) →
        (handle_message_core detector client translator now name msg uc).1.progress.achievements
          = (if uc.progress.total_interactions + 1 = 1
                ∧ "First Question!" ∉ uc.progress.achievements
             then uc.progress.achievements ++ ["First Question!"]
             else if uc.progress.total_interactions + 1 = 10
                ∧ "Active Learner!" ∉ uc.progress.achievements
             then uc.progress.achievements ++ ["Active Learner!"]
             else if 3 ≤ uc.learning_goals.length
                ∧ "Goal Setter!" ∉ uc.progress.achievements
             then uc.progress.achievements ++ ["Goal Setter!"]
             else uc.progress.achievements)) := by
  by_cases h : containsGoalKeyword msg = true ∧ uc.learning_goals.length < 10
  · rw [hmc_achievements_goal detector client translator now name msg uc h]
    exact ⟨List.prefix_refl _, by omega, fun hc => absurd h hc⟩
  · rw [hmc_ach_teaching detector client translator now name msg uc h]
    refine ⟨?_, ?_, fun _ => rfl⟩
    · split_ifs <;> simp [List.prefix_append]
    · split_ifs <;> simp

/-- Witness for C2: the first teaching message of a fresh profile grants
exactly the achievement First Question!. -/
theorem achievement_chain_first_match_witness :
    (handle_message_core frDetector none okTranslator 0 "Ann" "hello"
      (get_user_context emptyStore 1 0)).1.progress.achievements = ["First Question!"] := by
  have h := (achievement_chain_first_match frDetector none okTranslator 0 "Ann" "hello"
    (get_user_context emptyStore 1 0)).2.2 (by decide)
  simpa [get_user_context, emptyStore] using h

/-- C3: the LLM path and the rule-based path both resolve the response
language by the single rule `preferred if confidence > 0.6 else detected`
(hundredths: `> 60`); at confidence exactly 0.60 the detected language is
used, at 0.61 the preferred language. -/
theorem response_language_single_rule (client : Option LLM) (translator : Translator)
    (question : String) (uc : UserProfile) :
    ((generate_educational_response client translator question uc).response_language
       = (if uc.language_confidence > 60 then uc.preferred_language else uc.detected_language))
    ∧ ((generate_rule_based_response translator question uc).response_language
       = (if uc.language_confidence > 60 then uc.preferred_language else uc.detected_language))
    ∧ (uc.language_confidence = 60 →
        (generate_educational_response client translator question uc).response_language
            = uc.detected_language
        ∧ (generate_rule_based_response translator question uc).response_language
            = uc.detected_language)
    ∧ (uc.language_confidence = 61 →
        (generate_educational_response client translator question uc).response_language
            = uc.preferred_language
        ∧ (generate_rule_based_response translator question uc).response_language
            = uc.preferred_language) := by
  refine ⟨edu_lang .., rb_lang .., fun h60 => ?_, fun h61 => ?_⟩
  · rw [edu_lang, rb_lang, h60]; simp
  · rw [edu_lang, rb_lang, h61]; simp

/-- Witness for C3: with preferred "fr" and detected "es", confidence 0.61
routes to "fr" and confidence 0.60 routes to "es". -/
theorem response_language_single_rule_witness :
    (generate_educational_response none okTranslator "hola"
        { roundTripProfile with
            language_confidence := 61, preferred_language := "fr",
            detected_language := "es" }).response_language = "fr"
    ∧ (generate_rule_based_response okTranslator "hola"
        { roundTripProfile with
            language_confidence := 60, preferred_language := "fr",
            detected_language := "es" }).response_language = "es" := by
  exact ⟨((response_language_single_rule none okTranslator "hola" _).2.2.2 rfl).1,
    ((response_language_single_rule none okTranslator "hola" _).2.2.1 rfl).2⟩

/-- C4: `preferred_language` is set to the message's detected language exactly
when the detection confidence is strictly greater than 0.7 (hundredths:
`> 70`) and the stored preference is still the default "en"; at confidence
0.70 or below, and whenever the preference differs from "en", it is left
unchanged. -/
theorem preferred_language_adoption_rule (detector : Detector) (client : Option LLM)
    (translator : Translator) (now : Nat) (name msg : String) (uc : UserProfile) :
    ((handle_message_core detector client translator now name msg uc).1.preferred_language
      = (if (detect_language detector msg).2 > 70 ∧ uc.preferred_language = "en"
          then (detect_language detector msg).1 else uc.preferred_language))
    ∧ ((detect_language detector msg).2 ≤ 70 →
        (handle_message_core detector client translator now name msg uc).1.preferred_language
          = uc.preferred_language)
    ∧ (uc.preferred_language ≠ "en" →
        (handle_message_core detector client translator now name msg uc).1.preferred_language
          = uc.preferred_language) := by
  refine ⟨hmc_preferred .., fun hle => ?_, fun hne => ?_⟩
  · rw [hmc_preferred]
    exact if_neg (fun hc => by omega)
  · rw [hmc_preferred]
    exact if_neg (fun hc => hne hc.2)

/-- Witness for C4: a 70-character message detected as French has confidence
exactly 0.70, and the default preference "en" is NOT overwritten. -/
theorem preferred_language_adoption_rule_witness :
    (handle_message_core frDetector none okTranslator 0 "Ann" msg70
      (get_user_context emptyStore 1 0)).1.preferred_language = "en" := by
  have h := (preferred_language_adoption_rule frDetector none okTranslator 0 "Ann" msg70
    (get_user_context emptyStore 1 0)).2.1 (by decide)
  simpa [get_user_context, emptyStore] using h

/-- C5: a message containing a goal keyword while fewer than 10 goals are
stored appends the raw message as a goal, replies with the confirmation
message, leaves achievements untouched, appends only the user event to the
history, does not consult the response generator (the result is independent
of the LLM and translator oracles), and the appended goal is persisted; with
exactly 10 goals the goals are unchanged and the message flows into the
teaching path (a teaching response event is appended); the cap of 10 goals is
never exceeded. -/
theorem goal_capture_branch (detector : Detector) (client : Option LLM)
    (translator : Translator) (now : Nat) (name msg : String) (uc : UserProfile) :
    (containsGoalKeyword msg = true ∧ uc.learning_goals.length < 10 →
        (handle_message_core detector client translator now name msg uc).1.learning_goals
          = uc.learning_goals ++ [msg]
      ∧ (handle_message_core detector client translator now name msg uc).2
          = goal_added_reply msg
      ∧ (handle_message_core detector client translator now name msg uc).1.progress.achievements
          = uc.progress.achievements
      ∧ (handle_message_core detector client translator now name msg uc).1.conversation_history
          = uc.conversation_history
            ++ [HistEvent.userQuestion now msg (detect_language detector msg).1
                  (detect_language detector msg).2]
      ∧ ∀ (client2 : Option LLM) (translator2 : Translator),
          handle_message_core detector client2 translator2 now name msg uc
            = handle_message_core detector client translator now name msg uc)
    ∧ (containsGoalKeyword msg = true ∧ uc.learning_goals.length = 10 →
        (handle_message_core detector client translator now name msg uc).1.learning_goals
          = uc.learning_goals
      ∧ ∃ resp rl,
          (handle_message_core detector client translator now name msg uc).1.conversation_history
            = uc.conversation_history
              ++ [HistEvent.userQuestion now msg (detect_language detector msg).1
                    (detect_language detector msg).2,
                  HistEvent.teachingResponse now resp rl])
    ∧ (uc.learning_goals.length ≤ 10 →
        (handle_message_core detector client translator now name msg uc).1.learning_goals.length
          ≤ 10)
    ∧ (∀ (store : Store) (user_id : Nat), StoreWF store →
        containsGoalKeyword msg = true
          ∧ (get_user_context store user_id now).learning_goals.length < 10 →
        ((handle_message detector client translator store user_id now name msg).1 user_id).map
            UserProfile.learning_goals
          = some ((get_user_context store user_id now).learning_goals ++ [msg])) := by
  refine ⟨fun h => ?_, fun h10 => ?_, fun hle => ?_, fun store user_id hwf hcond => ?_⟩
  · exact ⟨by rw [hmc_goals]; exact if_pos h,
      hmc_goalreply detector client translator now name msg uc h,
      hmc_achievements_goal detector client translator now name msg uc h,
      hmc_hist_goal detector client translator now name msg uc h,
      fun client2 translator2 =>
        (hmc_indep detector client2 client translator2 translator now name msg uc h)⟩
  · have hfalse : ¬ (containsGoalKeyword msg = true ∧ uc.learning_goals.length < 10) :=
      fun hc => by omega
    exact ⟨by rw [hmc_goals]; exact if_neg hfalse,
      hmc_hist_teaching detector client translator now name msg uc hfalse⟩
  · rw [hmc_goals]
    split_ifs with hg
    · simp only [List.length_append, List.length_cons, List.length_nil]
      omega
    · exact hle
  · have hk : (handle_message_core detector client translator now name msg
        (get_user_context store user_id now)).1.user_id = user_id :=
      (hmc_user_id ..).trans (get_user_id store user_id now hwf)
    have hsl := save_lookup store (handle_message_core detector client translator now name msg
      (get_user_context store user_id now)).1 now
    rw [hk] at hsl
    simp only [handle_message, hsl, Option.map_some]
    rw [hmc_goals, if_pos hcond]
    simp

/-- Witness for C5: on a fresh profile the message "I want to learn python"
is captured as the single learning goal. -/
theorem goal_capture_branch_witness :
    (handle_message_core frDetector none okTranslator 0 "Ann" "I want to learn python"
      (get_user_context emptyStore 1 0)).1.learning_goals = ["I want to learn python"] := by
  have h := ((goal_capture_branch frDetector none okTranslator 0 "Ann" "I want to learn python"
    (get_user_context emptyStore 1 0)).1 (by decide)).1
  simpa [get_user_context, emptyStore] using h

/-- C6: `detect_language` returns ("en", 0.5) when the trimmed text is shorter
than 3 characters; on successful detection it returns the alias-normalized
code with confidence clamp(trimmed_length/100, 0.6, 0.9); on detector failure
or any unexpected error it returns ("en", 0.3); being a total function of the
detector oracle it never propagates an exception (confidences in
hundredths). -/
theorem detect_language_contract (detector : Detector) (text : String) :
    ((pyStrip text.data).length < 3 → detect_language detector text = ("en", 50))
    ∧ (∀ lang, ¬ (pyStrip text.data).length < 3 →
        detector (pyStrip text.data) = some lang →
        detect_language detector text
          = (language_map_get lang, min 90 (max 60 (pyStrip text.data).length)))
    ∧ (¬ (pyStrip text.data).length < 3 →
        detector (pyStrip text.data) = none →
        detect_language detector text = ("en", 30)) := by
  refine ⟨fun h => ?_, fun lang h hd => ?_, fun h hd => ?_⟩
  · simp [detect_language, h]
  · simp [detect_language, h, hd]
  · simp [detect_language, h, hd]

/-- Witness for C6: a 21-character French text detects as ("fr", 0.60), an
unclassifiable text falls back to ("en", 0.3), and a 2-character text
short-circuits to ("en", 0.5). -/
theorem detect_language_contract_witness :
    detect_language frDetector "bonjour tout le monde" = ("fr", 60)
    ∧ detect_language (fun _ => none) "bonjour tout le monde" = ("en", 30)
    ∧ detect_language frDetector "hi" = ("en", 50) := by
  refine ⟨?_, ?_, ?_⟩
  · have h := (detect_language_contract frDetector "bonjour tout le monde").2.1 "fr"
      (by decide) rfl
    rw [h]; decide
  · exact (detect_language_contract (fun _ => none) "bonjour tout le monde").2.2 (by decide) rfl
  · exact (detect_language_contract frDetector "hi").1 (by decide)

/-- C7: every save persists exactly the last 50 history entries — a suffix of
the in-memory history, in original order, of length at most 50 — and after 60
sequential messages from a fresh user the persisted history length is exactly
50. -/
theorem history_truncation :
    (∀ (store : Store) (uc : UserProfile) (now : Nat),
      ∃ row, (save_user_context store uc now) uc.user_id = some row
        ∧ row.conversation_history = lastN 50 uc.conversation_history
        ∧ row.conversation_history.length ≤ 50
        ∧ row.conversation_history <:+ uc.conversation_history)
    ∧ (∀ (detector : Detector) (client : Option LLM) (translator : Translator)
        (user_id : Nat) (msgs : List (Nat × String × String)), msgs.length = 60 →
        storedLen (runMessages detector client translator user_id msgs emptyStore) user_id
          = 50) := by
  constructor
  · intro store uc now
    exact ⟨_, save_lookup store uc now, rfl, by rw [lastN_length]; omega, lastN_suffix _ _⟩
  · intro detector client translator user_id msgs h60
    obtain ⟨_, h2, h3⟩ := runMessages_storedLen detector client translator user_id msgs
      emptyStore emptyStore_wf (by rw [emptyStore_len]; omega)
    rw [emptyStore_len, h60] at h3
    omega

/-- Witness for C7: 60 concrete messages leave exactly 50 stored history
entries, and a concrete save stores at most 50 entries. -/
theorem history_truncation_witness :
    storedLen (runMessages frDetector none okTranslator 7
      (List.replicate 60 (0, "u", "hi")) emptyStore) 7 = 50
    ∧ ∃ row, (save_user_context emptyStore roundTripProfile 0) 42 = some row
        ∧ row.conversation_history.length ≤ 50 := by
  constructor
  · exact (history_truncation).2 frDetector none okTranslator 7 _ (by simp)
  · obtain ⟨row, h1, _, h3, _⟩ := (history_truncation).1 emptyStore roundTripProfile 0
    exact ⟨row, h1, h3⟩

/-- C8 (code bug witness): the content fields round-trip through save and
load, but `created_at` is NOT preserved across saves: the `INSERT OR REPLACE`
in `save_user_context` omits the `created_at` column, so the replaced row
takes the schema default `CURRENT_TIMESTAMP` (the save instant).  Saving the
fixture profile (created at instant 0) at instant 0 reloads deep-equal, but
saving it again at instant 5 reloads with `created_at = 5` while every
content field still round-trips. -/
theorem created_at_reset_on_save :
    reloadedOnce = roundTripProfile
    ∧ roundTripProfile.created_at = 0
    ∧ reloadedTwice.created_at = 5
    ∧ reloadedTwice.learning_goals = roundTripProfile.learning_goals
    ∧ reloadedTwice.progress = roundTripProfile.progress
    ∧ reloadedTwice.difficulty_level = roundTripProfile.difficulty_level
    ∧ reloadedTwice.learning_style = roundTripProfile.learning_style
    ∧ reloadedTwice.preferred_language = roundTripProfile.preferred_language
    ∧ reloadedTwice.last_active = 5 := by
  decide

/-- C9: when the resolved response language is not "en" the rule-based path
hands the English template to the translator with source "en" and target the
response language, returning the translator's output on success and the
untranslated English text on failure; when the response language is "en",
translation is skipped entirely and the result does not depend on the
translator. -/
theorem rule_based_translation_routing (translator : Translator) (question : String)
    (uc : UserProfile) :
    ((if uc.language_confidence > 60 then uc.preferred_language else uc.detected_language)
        ≠ "en" →
      (∀ t, translator "en"
          (if uc.language_confidence > 60 then uc.preferred_language else uc.detected_language)
          (english_response_of question uc.difficulty_level) = Except.ok t →
        (generate_rule_based_response translator question uc).text = t)
      ∧ (∀ e, translator "en"
          (if uc.language_confidence > 60 then uc.preferred_language else uc.detected_language)
          (english_response_of question uc.difficulty_level) = Except.error e →
        (generate_rule_based_response translator question uc).text
          = english_response_of question uc.difficulty_level))
    ∧ ((if uc.language_confidence > 60 then uc.preferred_language else uc.detected_language)
        = "en" →
      (generate_rule_based_response translator question uc).text
        = english_response_of question uc.difficulty_level
      ∧ ∀ translator2 : Translator,
          generate_rule_based_response translator2 question uc
            = generate_rule_based_response translator question uc) := by
  refine ⟨fun hne => ⟨fun t ht => ?_, fun e he => ?_⟩, fun hen => ⟨?_, fun t2 => ?_⟩⟩
  · rw [rb_text_translated translator question uc hne, ht]
  · rw [rb_text_translated translator question uc hne, he]
  · rw [rb_text_en translator question uc hen]
  · rw [rb_text_en translator question uc hen, rb_text_en t2 question uc hen]

/-- Witness for C9: with response language "fr" and a failing translator, the
rule-based reply is the untranslated English template. -/
theorem rule_based_translation_routing_witness :
    (generate_rule_based_response failTranslator "what is gravity"
        { roundTripProfile with language_confidence := 80, preferred_language := "fr" }).text
      = english_response_of "what is gravity" "advanced" := by
  have h := ((rule_based_translation_routing failTranslator "what is gravity"
    { roundTripProfile with language_confidence := 80, preferred_language := "fr" }).1
      (by decide)).2 "service unavailable" rfl
  simpa using h

/-- C10: the auto-adoption guard only compares `preferred_language` against
the literal "en", not against how it was chosen: explicitly selecting English
from the language menu stores "en", and any profile whose preference is "en"
has it overwritten with the detected language by a single message whose
detection confidence exceeds 0.7 (hundredths: `> 70`). -/
theorem adoption_overwrites_explicit_english (store : Store) (user_id now now2 : Nat)
    (detector : Detector) (client : Option LLM) (translator : Translator)
    (name msg : String) :
    (∀ uc : UserProfile, uc.preferred_language = "en" →
        (detect_language detector msg).2 > 70 →
        (handle_message_core detector client translator now2 name msg uc).1.preferred_language
          = (detect_language detector msg).1)
    ∧ (StoreWF store →
        (get_user_context (button_callback_lang store user_id now "en")
            user_id now2).preferred_language = "en") := by
  constructor
  · intro uc hpref hconf
    rw [hmc_preferred]
    exact if_pos ⟨hconf, hpref⟩
  · intro hwf
    have hk := get_user_id store user_id now hwf
    have h := get_after_save_preferred store
      { get_user_context store user_id now with preferred_language := "en" } now now2
    simp only [button_callback_lang, if_neg (show ¬ ("en" = "auto") by decide)]
    simpa [hk] using h

/-- Witness for C10: the user explicitly selects English from the menu, then
sends one 71-character message detected as French with confidence 0.71, and
the stored preference becomes "fr". -/
theorem adoption_overwrites_explicit_english_witness :
    (handle_message_core frDetector none okTranslator 1 "Ann" msg71
      (get_user_context (button_callback_lang emptyStore 1 0 "en") 1 1)).1.preferred_language
      = "fr" := by
  have h2 := (adoption_overwrites_explicit_english emptyStore 1 0 1 frDetector none okTranslator
    "Ann" msg71).2 emptyStore_wf
  have h1 := (adoption_overwrites_explicit_english emptyStore 1 0 1 frDetector none okTranslator
    "Ann" msg71).1 (get_user_context (button_callback_lang emptyStore 1 0 "en") 1 1) h2
    (by decide)
  rw [h1]
  decide
